import Mathlib

/-!
A shallow embedding of `backend/main.py` of the Waste-S repository
(an AI waste-segregation FastAPI service), together with proofs of the
specified request-handling properties.

External effects (the CLIP pipeline, PIL image decoding, the Gemini
text-generation call) are modelled as per-request oracles: each oracle
carries the outcome the external library would produce on this request,
with `Except.error` standing for a raised Python exception.  Python
strings are Lean `String`s; `str.startswith` and `str.upper` are modelled
over the character list, and floating-point confidence scores are
modelled as rationals.
-/

/-- Python `s.startswith(pre)`, modelled over the character lists of the
two strings. -/
def pyStartswith (s pre : String) : Bool :=
  pre.data.isPrefixOf s.data

/-- Python `s.upper()`: uppercase every character. -/
def pyUpper (s : String) : String :=
  ⟨s.data.map Char.toUpper⟩

/-- Fixed-point formatting of a rational `q` (a probability score) as the
percent string Python produces with `f"{q*100:.1f}"`, modelled with
round-half-up integer arithmetic over the numerator and denominator. -/
def formatPct1 (q : ℚ) : String :=
  let n : Int := (q.num * 2000 + (q.den : Int)) / (2 * (q.den : Int))
  toString (n / 10) ++ "." ++ toString (n.natAbs % 10)

/-- The opaque handle returned by `pipeline(...)` in `load_clip_model`
(main.py line 48); only its presence or absence matters to the service. -/
abbrev Classifier := Unit

/-- A decoded PIL image; the only attribute `main.py` reads is `mode`
(line 171). -/
structure PILImage where
  mode : String
deriving DecidableEq, Repr

/-- One entry of the list returned by the zero-shot classifier call
(main.py line 176): a candidate-label string and a confidence score. -/
structure Prediction where
  label : String
  score : ℚ
deriving DecidableEq, Repr

/-- The per-category display record stored in `DUSTBIN_INFO`
(main.py lines 76-101). -/
structure Dustbin where
  color : String
  hindi : String
  bin : String
  examples : String
deriving DecidableEq, Repr

/-- `WASTE_CATEGORIES` (main.py lines 62-67): the four candidate label
descriptions handed to the classifier. -/
def WASTE_CATEGORIES : List String := [
  "dry recyclable waste such as plastic bottles paper cardboard metal cans glass containers",
  "wet organic biodegradable waste such as food scraps fruit peels vegetable waste leaves",
  "electronic waste such as mobile phones laptops computers batteries chargers cables",
  "hazardous waste such as medicines chemicals light bulbs batteries syringes"
]

/-- `CATEGORY_MAPPING` (main.py lines 69-74), as the association list of
the Python dict literal, in source order. -/
def CATEGORY_MAPPING : List (String × String) := [
  ("dry recyclable waste such as plastic bottles paper cardboard metal cans glass containers", "dry"),
  ("wet organic biodegradable waste such as food scraps fruit peels vegetable waste leaves", "wet"),
  ("electronic waste such as mobile phones laptops computers batteries chargers cables", "e-waste"),
  ("hazardous waste such as medicines chemicals light bulbs batteries syringes", "hazardous")
]

/-- `DUSTBIN_INFO` (main.py lines 76-101), as an association list from
category code to its display record, in source order. -/
def DUSTBIN_INFO : List (String × Dustbin) := [
  ("dry",
    { color := "🔵 BLUE", hindi := "सूखा कचरा", bin := "Blue Dustbin",
      examples := "Plastic bottles, paper, cardboard, glass" }),
  ("wet",
    { color := "🟢 GREEN", hindi := "गीला कचरा", bin := "Green Dustbin",
      examples := "Food waste, fruit peels, vegetables, leaves" }),
  ("e-waste",
    { color := "⚫ BLACK/GREY", hindi := "इलेक्ट्रॉनिक कचरा", bin := "E-waste Collection Center",
      examples := "Phones, laptops, batteries, chargers" }),
  ("hazardous",
    { color := "🔴 RED", hindi := "खतरनाक कचरा", bin := "Hazardous Waste Bin",
      examples := "Medicines, chemicals, bulbs, batteries" })
]

/-- The prompt string built by `get_waste_guidance` (main.py lines
105-120); the f-string interpolates only the category code. -/
def guidancePrompt (category : String) : String :=
  "\nYou are an expert waste management advisor. A waste item has been classified as **" ++
  pyUpper category ++ " WASTE**.\n\n" ++
  "Provide guidance in this EXACT format (keep it concise and clear):\n\n" ++
  "**WHY this is " ++ pyUpper category ++ " waste:**\n" ++
  "[2-3 sentences explaining why this item belongs to this category]\n\n" ++
  "**HOW to dispose safely:**\n" ++
  "[3-4 bullet points with practical disposal steps]\n\n" ++
  "**ECO TIP:**\n" ++
  "[1 creative eco-friendly tip or interesting fact]\n\n" ++
  "Keep the tone friendly and educational. Use simple language (mix of English and Hindi is fine).\n"

/-- The fixed fallback guidance template returned by `get_waste_guidance`
when the Gemini call raises (main.py lines 127-139); the f-string
interpolates only the category code. -/
def fallbackGuidance (category : String) : String :=
  "\n**WHY this is " ++ pyUpper category ++ " waste:**\n" ++
  "This item is classified as " ++ category ++
  " waste based on its material composition and decomposition properties.\n\n" ++
  "**HOW to dispose safely:**\n" ++
  "• Separate this waste from other types\n" ++
  "• Place it in the designated " ++ category ++ " waste bin\n" ++
  "• Follow local waste management guidelines\n" ++
  "• Contact your municipal corporation for collection schedule\n\n" ++
  "**ECO TIP:**\n" ++
  "Remember: Proper segregation at source makes recycling more effective and helps protect our environment! 🌱\n"

/-- `get_waste_guidance` (main.py lines 103-139).  The external call
`gemini_model.generate_content(prompt)` is the oracle `gemini`, a
function of the prompt string whose `.error` case models any raised
exception.  As in the source, `detected_object` is accepted but never
read. -/
def get_waste_guidance (category : String) (detected_object : String)
    (gemini : String → Except String String) : String :=
  let prompt := guidancePrompt category
  match gemini prompt with
  | .ok text => text
  | .error _ => fallbackGuidance category

/-- `load_clip_model` (main.py lines 43-56): the `pipeline(...)` call
outcome is passed as an oracle.  Returns the pair (Python return value,
new value of the global `classifier`, which was `None` beforehand); on
failure the exception is swallowed, `False` is returned and the global
stays `None` — the process keeps starting either way. -/
def load_clip_model (pipelineResult : Except String Classifier) :
    Bool × Option Classifier :=
  match pipelineResult with
  | .ok c => (true, some c)
  | .error _ => (false, none)

/-- Startup credential check (main.py lines 13-15):
`GEMINI_API_KEY = os.getenv(...)` followed by
`if not GEMINI_API_KEY: raise ValueError(...)`.  Python truthiness makes
both a missing variable and an empty string falsy, so both abort
startup; `.ok` carries the accepted key. -/
def startupCredentialCheck : Option String → Except String String
  | none => .error "❌ GEMINI_API_KEY environment variable missing!"
  | some k => if k = "" then .error "❌ GEMINI_API_KEY environment variable missing!" else .ok k

/-- The color-mode normalization of main.py lines 171-172:
`if image.mode != "RGB": image = image.convert("RGB")`. -/
def rgbConvert (img : PILImage) : PILImage :=
  if img.mode = "RGB" then img else { mode := "RGB" }

/-- The mutable server state relevant to `/classify`: the global
`classifier` handle (main.py line 41). -/
structure ServerState where
  classifier : Option Classifier

/-- One `/classify` request: the uploaded file's declared content type
(`None` when the part carries no Content-Type header) and its name. -/
structure Request where
  content_type : Option String
  filename : String

/-- The per-request outcomes of the three external library calls made by
the handler: PIL decoding of the uploaded bytes, the classifier applied
to the (mode-normalized) image, and the Gemini call applied to the
prompt.  `Except.error` models a raised exception. -/
structure World where
  decodeImage : Except String PILImage
  classify : PILImage → Except String (List Prediction)
  gemini : String → Except String String

/-- An external side-effecting call the handler can make, for tracking
which externals a request actually invoked. -/
inductive ExtCall where
  | classifierCall
  | geminiCall
deriving DecidableEq, Repr

/-- The `dustbin` sub-object of the success payload (main.py lines
190-194). -/
structure DustbinOut where
  color : String
  type : String
  hindi_name : String
deriving DecidableEq, Repr

/-- One entry of `all_predictions` (main.py lines 197-203). -/
structure PredOut where
  label : String
  score : String
deriving DecidableEq, Repr

/-- The success JSON payload of `/classify` (main.py lines 185-204). -/
structure ResponseBody where
  success : Bool
  detected_object : String
  confidence : String
  waste_category : String
  dustbin : DustbinOut
  examples : String
  ai_guidance : String
  all_predictions : List PredOut
deriving DecidableEq, Repr

/-- How one `/classify` request terminates: a 200 JSON response, a raised
`HTTPException(status, detail)` (the structured error path), or a raw
Python exception escaping the handler uncaught. -/
inductive Outcome where
  | response (status : Nat) (body : ResponseBody)
  | httpError (status : Nat) (detail : String)
  | uncaught (message : String)
deriving DecidableEq, Repr

/-- Whether an outcome is an exception that escaped the handler. -/
def Outcome.isUncaught : Outcome → Bool
  | .uncaught _ => true
  | _ => false

/-- The `all_predictions` list comprehension (main.py lines 197-203);
a label outside `CATEGORY_MAPPING` raises `KeyError`, surfaced here as
`.error` at the first offending element in iteration order. -/
def allPredictions : List Prediction → Except String (List PredOut)
  | [] => .ok []
  | p :: ps =>
    match CATEGORY_MAPPING.lookup p.label with
    | none => .error ("KeyError: " ++ p.label)
    | some code =>
      match allPredictions ps with
      | .error e => .error e
      | .ok rest =>
        .ok ({ label := pyUpper code ++ " WASTE",
               score := formatPct1 p.score ++ "%" } :: rest)

/-- The body of the `try` block of `classify_waste` (main.py lines
167-206), with the list of external calls actually made.  Failure points
in source order: image decoding, the classifier call, `predictions[0]`
on an empty list, `CATEGORY_MAPPING[label]`, then (after the guidance
call, which cannot fail) the `DUSTBIN_INFO` lookups and the
`all_predictions` comprehension. -/
def tryBody (req : Request) (w : World) :
    Except String ResponseBody × List ExtCall :=
  match w.decodeImage with
  | .error e => (.error e, [])
  | .ok img =>
    let image := rgbConvert img
    match w.classify image with
    | .error e => (.error e, [.classifierCall])
    | .ok predictions =>
      match predictions with
      | [] => (.error "IndexError: list index out of range", [.classifierCall])
      | best :: _ =>
        match CATEGORY_MAPPING.lookup best.label with
        | none => (.error ("KeyError: " ++ best.label), [.classifierCall])
        | some category =>
          let guidance := get_waste_guidance category best.label w.gemini
          match DUSTBIN_INFO.lookup category with
          | none => (.error ("KeyError: " ++ category), [.classifierCall, .geminiCall])
          | some info =>
            match allPredictions predictions with
            | .error e => (.error e, [.classifierCall, .geminiCall])
            | .ok preds =>
              (.ok { success := true
                     detected_object := pyUpper category ++ " waste detected"
                     confidence := formatPct1 best.score ++ "%"
                     waste_category := pyUpper category
                     dustbin := { color := info.color, type := info.bin,
                                  hindi_name := info.hindi }
                     examples := info.examples
                     ai_guidance := guidance
                     all_predictions := preds },
               [.classifierCall, .geminiCall])

/-- The `/classify` handler `classify_waste` (main.py lines 158-210),
paired with the external calls it made.  The content-type check and the
classifier-presence check run before the `try` block: when the declared
content type is absent, `file.content_type.startswith(...)` raises an
`AttributeError` that nothing in the handler catches. -/
def classify_waste (st : ServerState) (req : Request) (w : World) :
    Outcome × List ExtCall :=
  match req.content_type with
  | none =>
    (.uncaught "AttributeError: NoneType object has no attribute startswith", [])
  | some ct =>
    if pyStartswith ct "image/" then
      match st.classifier with
      | none => (.httpError 500 "Model not loaded. Please wait.", [])
      | some _ =>
        match tryBody req w with
        | (.ok body, calls) => (.response 200 body, calls)
        | (.error e, calls) =>
          (.httpError 500 ("Classification failed: " ++ e), calls)
    else
      (.httpError 400 "Only image files allowed", [])

/-! ### Helper lemmas -/

lemma fallbackGuidance_ne_empty (category : String) :
    fallbackGuidance category ≠ "" := by
  intro h
  have h2 := congrArg String.length h
  rw [fallbackGuidance] at h2
  simp only [String.length_append] at h2
  have hl : ("\n**WHY this is " : String).length = 15 := by decide
  have he : ("" : String).length = 0 := rfl
  rw [hl, he] at h2
  omega

lemma table_total :
    ∀ d ∈ WASTE_CATEGORIES,
      ((CATEGORY_MAPPING.lookup d).bind (fun c => DUSTBIN_INFO.lookup c)).isSome = true := by
  decide

lemma lookup_pair_of_mem {d : String} (hd : d ∈ WASTE_CATEGORIES) :
    ∃ c info, CATEGORY_MAPPING.lookup d = some c ∧ DUSTBIN_INFO.lookup c = some info := by
  have h := table_total d hd
  cases hc : CATEGORY_MAPPING.lookup d with
  | none => rw [hc] at h; simp at h
  | some c =>
    rw [hc] at h
    simp only [Option.some_bind] at h
    cases hi : DUSTBIN_INFO.lookup c with
    | none => rw [hi] at h; simp at h
    | some info => exact ⟨c, info, rfl, hi⟩

lemma allPredictions_ok {ps : List Prediction}
    (h : ∀ p ∈ ps, p.label ∈ WASTE_CATEGORIES) :
    ∃ l, allPredictions ps = .ok l ∧ l.length = ps.length := by
  induction ps with
  | nil => exact ⟨[], rfl, rfl⟩
  | cons p ps ih =>
    obtain ⟨l, hl, hlen⟩ := ih (fun q hq => h q (List.mem_cons_of_mem _ hq))
    obtain ⟨c, info, hc, -⟩ := lookup_pair_of_mem (h p (List.mem_cons_self _ _))
    refine ⟨{ label := pyUpper c ++ " WASTE",
              score := formatPct1 p.score ++ "%" } :: l, ?_, ?_⟩
    · simp [allPredictions, hc, hl]
    · simp [hlen]

lemma tryBody_success {req : Request} {w : World} {img : PILImage}
    {best : Prediction} {rest : List Prediction} {c : String} {info : Dustbin}
    {preds : List PredOut}
    (hdec : w.decodeImage = .ok img)
    (hcls : w.classify (rgbConvert img) = .ok (best :: rest))
    (hc : CATEGORY_MAPPING.lookup best.label = some c)
    (hinfo : DUSTBIN_INFO.lookup c = some info)
    (hl : allPredictions (best :: rest) = .ok preds) :
    tryBody req w =
      (.ok { success := true
             detected_object := pyUpper c ++ " waste detected"
             confidence := formatPct1 best.score ++ "%"
             waste_category := pyUpper c
             dustbin := { color := info.color, type := info.bin,
                          hindi_name := info.hindi }
             examples := info.examples
             ai_guidance := get_waste_guidance c best.label w.gemini
             all_predictions := preds },
       [.classifierCall, .geminiCall]) := by
  simp [tryBody, hdec, hcls, hc, hinfo, hl]

lemma classify_success {st : ServerState} {req : Request} {w : World}
    {ct : String} {img : PILImage} {best : Prediction} {rest : List Prediction}
    {c : String} {info : Dustbin} {preds : List PredOut}
    (hct : req.content_type = some ct)
    (him : pyStartswith ct "image/" = true)
    (hcl : st.classifier.isSome = true)
    (hdec : w.decodeImage = .ok img)
    (hcls : w.classify (rgbConvert img) = .ok (best :: rest))
    (hc : CATEGORY_MAPPING.lookup best.label = some c)
    (hinfo : DUSTBIN_INFO.lookup c = some info)
    (hl : allPredictions (best :: rest) = .ok preds) :
    classify_waste st req w =
      (.response 200
        { success := true
          detected_object := pyUpper c ++ " waste detected"
          confidence := formatPct1 best.score ++ "%"
          waste_category := pyUpper c
          dustbin := { color := info.color, type := info.bin,
                       hindi_name := info.hindi }
          examples := info.examples
          ai_guidance := get_waste_guidance c best.label w.gemini
          all_predictions := preds },
       [.classifierCall, .geminiCall]) := by
  obtain ⟨clf, hclf⟩ := Option.isSome_iff_exists.mp hcl
  rw [classify_waste, hct]
  simp only [him, if_true, hclf]
  rw [tryBody_success hdec hcls hc hinfo hl]

lemma classify_some_ct_not_uncaught {st : ServerState} {req : Request}
    {w : World} {ct : String} (hct : req.content_type = some ct) :
    (classify_waste st req w).1.isUncaught = false := by
  simp only [classify_waste, hct]
  cases him : pyStartswith ct "image/" with
  | false => simp [Outcome.isUncaught]
  | true =>
    simp only [if_true]
    cases st.classifier with
    | none => rfl
    | some clf =>
      rcases htb : tryBody req w with ⟨r, calls⟩
      cases r <;> simp [htb, Outcome.isUncaught]

lemma classify_tryBody_error {st : ServerState} {req : Request} {w : World}
    {ct : String} {e : String}
    (hct : req.content_type = some ct)
    (him : pyStartswith ct "image/" = true)
    (hcl : st.classifier.isSome = true)
    (htb : (tryBody req w).1 = .error e) :
    (classify_waste st req w).1 =
      .httpError 500 ("Classification failed: " ++ e) := by
  obtain ⟨clf, hclf⟩ := Option.isSome_iff_exists.mp hcl
  simp only [classify_waste, hct, him, if_true, hclf]
  rcases htb2 : tryBody req w with ⟨r, calls⟩
  rw [htb2] at htb
  simp only at htb
  subst htb
  simp

/-! ### Concrete fixtures used by the witness theorems -/

/-- A decoded image already in RGB mode. -/
def imgRGB : PILImage := { mode := "RGB" }

/-- Server state after a successful model load. -/
def stReady : ServerState := { classifier := some () }

/-- A request whose uploaded file declares an image content type. -/
def reqJpeg : Request := { content_type := some "image/jpeg", filename := "item.jpg" }

/-- A ranked classifier output putting the wet-waste description first,
with one entry per candidate description. -/
def wetFirstPreds : List Prediction := [
  { label := "wet organic biodegradable waste such as food scraps fruit peels vegetable waste leaves",
    score := 1 },
  { label := "dry recyclable waste such as plastic bottles paper cardboard metal cans glass containers",
    score := 0 },
  { label := "electronic waste such as mobile phones laptops computers batteries chargers cables",
    score := 0 },
  { label := "hazardous waste such as medicines chemicals light bulbs batteries syringes",
    score := 0 }
]

/-- A request world where every external call succeeds. -/
def wWetOk : World :=
  { decodeImage := .ok imgRGB,
    classify := fun _ => .ok wetFirstPreds,
    gemini := fun _ => .ok "Generated guidance text" }

/-- A request world where the Gemini call raises on every prompt. -/
def wGeminiDown : World :=
  { decodeImage := .ok imgRGB,
    classify := fun _ => .ok wetFirstPreds,
    gemini := fun _ => .error "429 Resource has been exhausted" }

/-- A request world where PIL cannot decode the uploaded bytes. -/
def wDecodeBoom : World :=
  { decodeImage := .error "UnidentifiedImageError",
    classify := fun _ => .ok [],
    gemini := fun _ => .ok "Generated guidance text" }

/-! ### Claims -/

/-- Claim C2: `CATEGORY_MAPPING` is a bijection between the four fixed
category descriptions (its keys, which are exactly `WASTE_CATEGORIES`)
and the four category codes dry, wet, e-waste, hazardous: the codes are
pairwise distinct and each of the four codes is the image of exactly one
description. -/
theorem CATEGORY_MAPPING_bijection :
    CATEGORY_MAPPING.map Prod.fst = WASTE_CATEGORIES ∧
    (CATEGORY_MAPPING.map Prod.fst).Nodup ∧
    (CATEGORY_MAPPING.map Prod.snd).Nodup ∧
    CATEGORY_MAPPING.map Prod.snd = ["dry", "wet", "e-waste", "hazardous"] ∧
    (["dry", "wet", "e-waste", "hazardous"].all
      (fun code => CATEGORY_MAPPING.countP (fun entry => entry.2 == code) == 1)) = true := by
  decide

/-- Claim C10: the output of `get_waste_guidance` depends only on its
category argument (and on the Gemini oracle, which is itself only ever
applied to the category-determined prompt): the `detected_object`
parameter is never used, so two calls differing only in
`detected_object` build the same prompt and return the same text. -/
theorem get_waste_guidance_ignores_detected_object
    (category d1 d2 : String) (gemini : String → Except String String) :
    get_waste_guidance category d1 gemini = get_waste_guidance category d2 gemini := rfl

/-- Claim C9: when the uploaded file declares no content type at all,
the handler's `file.content_type.startswith("image/")` check raises
before the `try` block, so the exception escapes the handler uncaught
and the structured 400 response is never produced; with any present
content-type string no exception escapes. -/
theorem missing_content_type_escapes_handler
    (st : ServerState) (w : World) (fn : String) (ct : String) :
    classify_waste st { content_type := none, filename := fn } w =
      (.uncaught "AttributeError: NoneType object has no attribute startswith", []) ∧
    (classify_waste st { content_type := none, filename := fn } w).1 ≠
      .httpError 400 "Only image files allowed" ∧
    (classify_waste st { content_type := some ct, filename := fn } w).1.isUncaught = false := by
  refine ⟨rfl, by simp [classify_waste], ?_⟩
  exact classify_some_ct_not_uncaught rfl

/-- Claim C7, corrected: startup aborts with the fatal configuration
error not only when `GEMINI_API_KEY` is absent from the environment but
also when it is present and empty (Python truthiness); a present
non-empty credential lets startup proceed. -/
theorem startup_requires_nonempty_credential (k : String) (hk : k ≠ "") :
    startupCredentialCheck none =
      .error "❌ GEMINI_API_KEY environment variable missing!" ∧
    startupCredentialCheck (some "") =
      .error "❌ GEMINI_API_KEY environment variable missing!" ∧
    startupCredentialCheck (some k) = .ok k := by
  refine ⟨rfl, rfl, ?_⟩
  simp [startupCredentialCheck, hk]

/-- Counterexample to claim C7 as stated: the credential value `""` is
present in the process environment, yet startup aborts with the fatal
error instead of proceeding, because `not GEMINI_API_KEY` is true for an
empty Python string. -/
theorem startup_empty_credential_cex :
    startupCredentialCheck (some "") =
      .error "❌ GEMINI_API_KEY environment variable missing!" := rfl

/-- Witness for C7 at the concrete key "AIza-test-key". -/
theorem startup_requires_nonempty_credential_witness :
    startupCredentialCheck none =
      .error "❌ GEMINI_API_KEY environment variable missing!" ∧
    startupCredentialCheck (some "") =
      .error "❌ GEMINI_API_KEY environment variable missing!" ∧
    startupCredentialCheck (some "AIza-test-key") = .ok "AIza-test-key" :=
  startup_requires_nonempty_credential "AIza-test-key" (by decide)

/-- Claim C4: a request whose declared content type does not start with
"image/" is answered with the 400 client error, and no external call
(classifier or guidance generator) is made. -/
theorem classify_non_image_400_no_calls
    (st : ServerState) (req : Request) (w : World) (ct : String)
    (hct : req.content_type = some ct)
    (him : pyStartswith ct "image/" = false) :
    classify_waste st req w = (.httpError 400 "Only image files allowed", []) := by
  simp [classify_waste, hct, him]

/-- Witness for C4 at a concrete text upload. -/
theorem classify_non_image_400_no_calls_witness :
    classify_waste stReady
      { content_type := some "text/plain", filename := "notes.txt" } wWetOk =
      (.httpError 400 "Only image files allowed", []) :=
  classify_non_image_400_no_calls stReady
    { content_type := some "text/plain", filename := "notes.txt" } wWetOk
    "text/plain" rfl (by decide)

/-- Claim C5: when model initialization fails, `load_clip_model` returns
normally (the process still starts) with the global classifier left
`None`, and every subsequent `/classify` request with an image content
type is rejected with the 500 "Model not loaded" error instead of
crashing. -/
theorem load_failure_then_model_not_loaded_500
    (err : String) (st : ServerState) (req : Request) (w : World) (ct : String)
    (hct : req.content_type = some ct)
    (him : pyStartswith ct "image/" = true)
    (hst : st.classifier = (load_clip_model (.error err)).2) :
    load_clip_model (.error err) = (false, none) ∧
    classify_waste st req w = (.httpError 500 "Model not loaded. Please wait.", []) := by
  refine ⟨rfl, ?_⟩
  simp only [load_clip_model] at hst
  simp [classify_waste, hct, him, hst]

/-- Witness for C5 at a concrete failed load and a concrete image upload. -/
theorem load_failure_then_model_not_loaded_500_witness :
    load_clip_model (.error "connection reset while downloading weights") = (false, none) ∧
    classify_waste { classifier := none } reqJpeg wWetOk =
      (.httpError 500 "Model not loaded. Please wait.", []) :=
  load_failure_then_model_not_loaded_500
    "connection reset while downloading weights"
    { classifier := none } reqJpeg wWetOk "image/jpeg" rfl (by decide) rfl

/-- Counterexample to claim C3 as stated: on a request whose uploaded
file declares no content type, the exception raised by the validation
step (before the `try` block) escapes the handler uncaught instead of
being converted to a 500 response carrying its message. -/
theorem classify_uncaught_exception_cex :
    (classify_waste stReady { content_type := none, filename := "item.jpg" } wWetOk).1 =
      .uncaught "AttributeError: NoneType object has no attribute startswith" := rfl

/-- Claim C3, amended: for every request whose uploaded file declares a
(present) content type, no exception escapes the handler un-converted,
and any exception raised inside the handler's `try` block is converted
to a 500 response carrying "Classification failed: " plus the exception
message; the pre-`try` content-type check can still raise uncaught when
the declared content type is absent. -/
theorem classify_errors_converted_when_content_type_present
    (st : ServerState) (req : Request) (w : World) (ct : String) (e : String)
    (hct : req.content_type = some ct) :
    (classify_waste st req w).1.isUncaught = false ∧
    (pyStartswith ct "image/" = true → st.classifier.isSome = true →
      (tryBody req w).1 = .error e →
      (classify_waste st req w).1 =
        .httpError 500 ("Classification failed: " ++ e)) :=
  ⟨classify_some_ct_not_uncaught hct,
   fun him hcl htb => classify_tryBody_error hct him hcl htb⟩

/-- Witness for C3 at a concrete corrupt-image request: the decode
exception inside the `try` block is converted to the structured 500. -/
theorem classify_errors_converted_witness :
    (classify_waste stReady reqJpeg wDecodeBoom).1.isUncaught = false ∧
    (pyStartswith "image/jpeg" "image/" = true →
      stReady.classifier.isSome = true →
      (tryBody reqJpeg wDecodeBoom).1 = .error "UnidentifiedImageError" →
      (classify_waste stReady reqJpeg wDecodeBoom).1 =
        .httpError 500 ("Classification failed: " ++ "UnidentifiedImageError")) :=
  classify_errors_converted_when_content_type_present
    stReady reqJpeg wDecodeBoom "image/jpeg" "UnidentifiedImageError" rfl

/-- Claim C1: if the Gemini call raises on every prompt, the request
still reaches a 200 response and its `ai_guidance` field is exactly the
deterministic fallback template for the resolved category, which is a
non-empty string. -/
theorem classify_gemini_failure_returns_fallback
    (st : ServerState) (req : Request) (w : World) (ct : String) (img : PILImage)
    (best : Prediction) (rest : List Prediction) (err : String)
    (hct : req.content_type = some ct)
    (him : pyStartswith ct "image/" = true)
    (hcl : st.classifier.isSome = true)
    (hdec : w.decodeImage = .ok img)
    (hcls : w.classify (rgbConvert img) = .ok (best :: rest))
    (hlab : ∀ p ∈ best :: rest, p.label ∈ WASTE_CATEGORIES)
    (hgem : ∀ prompt, w.gemini prompt = .error err) :
    ∃ c body,
      CATEGORY_MAPPING.lookup best.label = some c ∧
      (classify_waste st req w).1 = .response 200 body ∧
      body.ai_guidance = fallbackGuidance c ∧
      body.ai_guidance ≠ "" := by
  obtain ⟨c, info, hc, hinfo⟩ := lookup_pair_of_mem (hlab best (List.mem_cons_self _ _))
  obtain ⟨preds, hl, -⟩ := allPredictions_ok hlab
  have hguid : get_waste_guidance c best.label w.gemini = fallbackGuidance c := by
    simp [get_waste_guidance, hgem]
  refine ⟨c,
    { success := true
      detected_object := pyUpper c ++ " waste detected"
      confidence := formatPct1 best.score ++ "%"
      waste_category := pyUpper c
      dustbin := { color := info.color, type := info.bin, hindi_name := info.hindi }
      examples := info.examples
      ai_guidance := get_waste_guidance c best.label w.gemini
      all_predictions := preds }, hc, ?_, ?_, ?_⟩
  · rw [classify_success hct him hcl hdec hcls hc hinfo hl]
  · exact hguid
  · show get_waste_guidance c best.label w.gemini ≠ ""
    rw [hguid]
    exact fallbackGuidance_ne_empty c

/-- Witness for C1 at a concrete request whose Gemini oracle always
raises a quota error. -/
theorem classify_gemini_failure_returns_fallback_witness :
    ∃ c body,
      CATEGORY_MAPPING.lookup
        "wet organic biodegradable waste such as food scraps fruit peels vegetable waste leaves" =
        some c ∧
      (classify_waste stReady reqJpeg wGeminiDown).1 = .response 200 body ∧
      body.ai_guidance = fallbackGuidance c ∧
      body.ai_guidance ≠ "" :=
  classify_gemini_failure_returns_fallback stReady reqJpeg wGeminiDown
    "image/jpeg" imgRGB
    { label := "wet organic biodegradable waste such as food scraps fruit peels vegetable waste leaves",
      score := 1 }
    (wetFirstPreds.drop 1) "429 Resource has been exhausted"
    rfl (by decide) rfl rfl rfl (by decide) (fun _ => rfl)

/-- Claim C6: on a successful classification whose top-ranked prediction
carries the wet-organic description (the classifier returning one ranked
entry per candidate description), the 200 response reports
`waste_category = "WET"`, `dustbin.type = "Green Dustbin"`,
`detected_object = "WET waste detected"`, and exactly 4 entries in
`all_predictions`. -/
theorem classify_wet_top_prediction
    (st : ServerState) (req : Request) (w : World) (ct : String) (img : PILImage)
    (best : Prediction) (rest : List Prediction)
    (hct : req.content_type = some ct)
    (him : pyStartswith ct "image/" = true)
    (hcl : st.classifier.isSome = true)
    (hdec : w.decodeImage = .ok img)
    (hcls : w.classify (rgbConvert img) = .ok (best :: rest))
    (hbest : best.label =
      "wet organic biodegradable waste such as food scraps fruit peels vegetable waste leaves")
    (hperm : ((best :: rest).map Prediction.label).Perm WASTE_CATEGORIES) :
    ∃ body,
      (classify_waste st req w).1 = .response 200 body ∧
      body.waste_category = "WET" ∧
      body.dustbin.type = "Green Dustbin" ∧
      body.detected_object = "WET waste detected" ∧
      body.all_predictions.length = 4 := by
  have hlab : ∀ p ∈ best :: rest, p.label ∈ WASTE_CATEGORIES := fun p hp =>
    hperm.subset (List.mem_map_of_mem _ hp)
  have hc : CATEGORY_MAPPING.lookup best.label = some "wet" := by
    rw [hbest]; decide
  have hinfo : DUSTBIN_INFO.lookup "wet" =
      some { color := "🟢 GREEN", hindi := "गीला कचरा", bin := "Green Dustbin",
             examples := "Food waste, fruit peels, vegetables, leaves" } := by
    decide
  obtain ⟨preds, hl, hlen⟩ := allPredictions_ok hlab
  have hlen4 : preds.length = 4 := by
    have h1 := hperm.length_eq
    rw [List.length_map] at h1
    rw [hlen, h1]
    rfl
  refine ⟨{ success := true
            detected_object := pyUpper "wet" ++ " waste detected"
            confidence := formatPct1 best.score ++ "%"
            waste_category := pyUpper "wet"
            dustbin := { color := "🟢 GREEN", type := "Green Dustbin",
                         hindi_name := "गीला कचरा" }
            examples := "Food waste, fruit peels, vegetables, leaves"
            ai_guidance := get_waste_guidance "wet" best.label w.gemini
            all_predictions := preds }, ?_, ?_, ?_, ?_, ?_⟩
  · rw [classify_success hct him hcl hdec hcls hc hinfo hl]
  · show pyUpper "wet" = "WET"
    decide
  · rfl
  · show pyUpper "wet" ++ " waste detected" = "WET waste detected"
    decide
  · exact hlen4

/-- Witness for C6 at a concrete wet-first ranked prediction list. -/
theorem classify_wet_top_prediction_witness :
    ∃ body,
      (classify_waste stReady reqJpeg wWetOk).1 = .response 200 body ∧
      body.waste_category = "WET" ∧
      body.dustbin.type = "Green Dustbin" ∧
      body.detected_object = "WET waste detected" ∧
      body.all_predictions.length = 4 :=
  classify_wet_top_prediction stReady reqJpeg wWetOk "image/jpeg" imgRGB
    { label := "wet organic biodegradable waste such as food scraps fruit peels vegetable waste leaves",
      score := 1 }
    (wetFirstPreds.drop 1)
    rfl (by decide) rfl rfl rfl rfl (by decide)

/-- Claim C8: every category code in the range of `CATEGORY_MAPPING` is
a key of `DUSTBIN_INFO` (whose records carry all of the fields color,
hindi, bin and examples by construction of the `Dustbin` type), so on
any classifier output whose labels are all known descriptions the
response-assembly lookups in the `try` block never raise a missing-key
error: the body is assembled successfully. -/
theorem category_codes_covered_by_dustbin_info
    (d : String) (hd : d ∈ WASTE_CATEGORIES)
    (req : Request) (w : World) (img : PILImage)
    (best : Prediction) (rest : List Prediction)
    (hdec : w.decodeImage = .ok img)
    (hcls : w.classify (rgbConvert img) = .ok (best :: rest))
    (hlab : ∀ p ∈ best :: rest, p.label ∈ WASTE_CATEGORIES) :
    (∃ c info, CATEGORY_MAPPING.lookup d = some c ∧
      DUSTBIN_INFO.lookup c = some info) ∧
    ∃ body, (tryBody req w).1 = .ok body := by
  refine ⟨lookup_pair_of_mem hd, ?_⟩
  obtain ⟨c, info, hc, hinfo⟩ := lookup_pair_of_mem (hlab best (List.mem_cons_self _ _))
  obtain ⟨preds, hl, -⟩ := allPredictions_ok hlab
  exact ⟨_, by rw [tryBody_success hdec hcls hc hinfo hl]⟩

/-- Witness for C8 at the dry-waste description and a concrete request. -/
theorem category_codes_covered_by_dustbin_info_witness :
    (∃ c info,
      CATEGORY_MAPPING.lookup
        "dry recyclable waste such as plastic bottles paper cardboard metal cans glass containers" =
        some c ∧
      DUSTBIN_INFO.lookup c = some info) ∧
    ∃ body, (tryBody reqJpeg wWetOk).1 = .ok body :=
  category_codes_covered_by_dustbin_info
    "dry recyclable waste such as plastic bottles paper cardboard metal cans glass containers"
    (by decide) reqJpeg wWetOk imgRGB
    { label := "wet organic biodegradable waste such as food scraps fruit peels vegetable waste leaves",
      score := 1 }
    (wetFirstPreds.drop 1) rfl rfl (by decide)
